import Mathlib

/-!
Verification of the revision-resolution routine of the crate-git-revision
repository (src/lib.rs).  The routine `__init` is embedded shallowly:

* the file system (reading `.cargo_vcs_info.json`), the JSON deserializer
  (an external library in the source) and the two subprocess invocations of
  the version-control tool are modelled as an environment `Env` of injectable
  capabilities, exactly the dependency boundary the source crosses with
  `read_to_string`, `serde_json::from_str` and `Command::output`;
* the output sink is modelled as an event trace: each `writeln!` appends a
  `wline` event carrying the written text (without the trailing newline the
  macro adds; `renderOut` restores it), and each subprocess invocation is
  recorded as a `call` event so that ordering of writes and invocations is
  observable; the sink may fail any individual write, which the source
  propagates with `?`;
* byte strings (subprocess stdout) are lists of naturals below 256, with the
  strict and lossy UTF-8 decoders of the Rust standard library
  (`str::from_utf8`, `String::from_utf8_lossy`) implemented over them, and
  `str::trim` implemented as `rustTrim` over the Unicode white-space set.
-/

namespace CrateGitRevision

/-- Shape of the continuation bytes of a multi-byte UTF-8 sequence: given a
leading byte, `some (len, lo, hi)` is the total sequence length together with
the admissible range of the first continuation byte (later continuation bytes
always range over `0x80`–`0xBF`); `none` when the byte cannot lead a
multi-byte sequence. -/
def leadInfo (b : Nat) : Option (Nat × Nat × Nat) :=
  if 0xC2 ≤ b ∧ b ≤ 0xDF then some (2, 0x80, 0xBF)
  else if b = 0xE0 then some (3, 0xA0, 0xBF)
  else if b = 0xED then some (3, 0x80, 0x9F)
  else if (0xE1 ≤ b ∧ b ≤ 0xEC) ∨ (0xEE ≤ b ∧ b ≤ 0xEF) then some (3, 0x80, 0xBF)
  else if b = 0xF0 then some (4, 0x90, 0xBF)
  else if 0xF1 ≤ b ∧ b ≤ 0xF3 then some (4, 0x80, 0xBF)
  else if b = 0xF4 then some (4, 0x80, 0x8F)
  else none

/-- Strict UTF-8 decoding of a byte sequence, `none` on any ill-formed input:
the semantics of Rust's `str::from_utf8` (shortest-form sequences only,
surrogates and code points above `0x10FFFF` excluded via `leadInfo`). -/
def utf8Decode : List Nat → Option (List Char)
  | [] => some []
  | b :: bs =>
    if b < 0x80 then
      (utf8Decode bs).map (fun cs => Char.ofNat b :: cs)
    else
      match leadInfo b, bs with
      | some (2, lo, hi), c1 :: rest =>
        if lo ≤ c1 ∧ c1 ≤ hi then
          (utf8Decode rest).map (fun cs =>
            Char.ofNat ((b - 0xC0) * 0x40 + (c1 - 0x80)) :: cs)
        else none
      | some (3, lo, hi), c1 :: c2 :: rest =>
        if (lo ≤ c1 ∧ c1 ≤ hi) ∧ (0x80 ≤ c2 ∧ c2 ≤ 0xBF) then
          (utf8Decode rest).map (fun cs =>
            Char.ofNat ((b - 0xE0) * 0x1000 + (c1 - 0x80) * 0x40 + (c2 - 0x80)) :: cs)
        else none
      | some (4, lo, hi), c1 :: c2 :: c3 :: rest =>
        if (lo ≤ c1 ∧ c1 ≤ hi) ∧ (0x80 ≤ c2 ∧ c2 ≤ 0xBF) ∧ (0x80 ≤ c3 ∧ c3 ≤ 0xBF) then
          (utf8Decode rest).map (fun cs =>
            Char.ofNat ((b - 0xF0) * 0x40000 + (c1 - 0x80) * 0x1000 +
              (c2 - 0x80) * 0x40 + (c3 - 0x80)) :: cs)
        else none
      | _, _ => none

/-- Lossy UTF-8 decoding: the semantics of Rust's `String::from_utf8_lossy`,
which replaces each maximal subpart of an ill-formed subsequence with one
U+FFFD replacement character (WHATWG substitution of maximal subparts). -/
def utf8Lossy : List Nat → List Char
  | [] => []
  | b :: bs =>
    if b < 0x80 then Char.ofNat b :: utf8Lossy bs
    else
      match leadInfo b, bs with
      | some (2, lo, hi), c1 :: rest =>
        if lo ≤ c1 ∧ c1 ≤ hi then
          Char.ofNat ((b - 0xC0) * 0x40 + (c1 - 0x80)) :: utf8Lossy rest
        else Char.ofNat 0xFFFD :: utf8Lossy (c1 :: rest)
      | some (3, lo, hi), c1 :: c2 :: rest =>
        if lo ≤ c1 ∧ c1 ≤ hi then
          if 0x80 ≤ c2 ∧ c2 ≤ 0xBF then
            Char.ofNat ((b - 0xE0) * 0x1000 + (c1 - 0x80) * 0x40 + (c2 - 0x80)) ::
              utf8Lossy rest
          else Char.ofNat 0xFFFD :: utf8Lossy (c2 :: rest)
        else Char.ofNat 0xFFFD :: utf8Lossy (c1 :: c2 :: rest)
      | some (3, lo, hi), [c1] =>
        if lo ≤ c1 ∧ c1 ≤ hi then [Char.ofNat 0xFFFD]
        else Char.ofNat 0xFFFD :: utf8Lossy [c1]
      | some (4, lo, hi), c1 :: c2 :: c3 :: rest =>
        if lo ≤ c1 ∧ c1 ≤ hi then
          if 0x80 ≤ c2 ∧ c2 ≤ 0xBF then
            if 0x80 ≤ c3 ∧ c3 ≤ 0xBF then
              Char.ofNat ((b - 0xF0) * 0x40000 + (c1 - 0x80) * 0x1000 +
                (c2 - 0x80) * 0x40 + (c3 - 0x80)) :: utf8Lossy rest
            else Char.ofNat 0xFFFD :: utf8Lossy (c3 :: rest)
          else Char.ofNat 0xFFFD :: utf8Lossy (c2 :: c3 :: rest)
        else Char.ofNat 0xFFFD :: utf8Lossy (c1 :: c2 :: c3 :: rest)
      | some (4, lo, hi), [c1, c2] =>
        if lo ≤ c1 ∧ c1 ≤ hi then
          if 0x80 ≤ c2 ∧ c2 ≤ 0xBF then [Char.ofNat 0xFFFD]
          else Char.ofNat 0xFFFD :: utf8Lossy [c2]
        else Char.ofNat 0xFFFD :: utf8Lossy [c1, c2]
      | some (4, lo, hi), [c1] =>
        if lo ≤ c1 ∧ c1 ≤ hi then [Char.ofNat 0xFFFD]
        else Char.ofNat 0xFFFD :: utf8Lossy [c1]
      | none, rest => Char.ofNat 0xFFFD :: utf8Lossy rest
      | some _, [] => [Char.ofNat 0xFFFD]
      | some _, rest => Char.ofNat 0xFFFD :: utf8Lossy rest

/-- `str::from_utf8(bs).ok().map(str::to_string)` as used on the stdout of the
second subprocess invocation. -/
def fromUtf8 (bs : List Nat) : Option String :=
  (utf8Decode bs).map String.mk

/-- `String::from_utf8_lossy` as used on the stdout of the first subprocess
invocation. -/
def fromUtf8Lossy (bs : List Nat) : String :=
  String.mk (utf8Lossy bs)

/-- Rust's `char::is_whitespace`: membership in the Unicode White_Space set. -/
def isRustWhitespace (c : Char) : Bool :=
  (0x09 ≤ c.toNat ∧ c.toNat ≤ 0x0D) ∨ c.toNat = 0x20 ∨ c.toNat = 0x85 ∨
    c.toNat = 0xA0 ∨ c.toNat = 0x1680 ∨ (0x2000 ≤ c.toNat ∧ c.toNat ≤ 0x200A) ∨
    c.toNat = 0x2028 ∨ c.toNat = 0x2029 ∨ c.toNat = 0x202F ∨
    c.toNat = 0x205F ∨ c.toNat = 0x3000

/-- Rust's `str::trim`: remove leading and trailing Unicode white space. -/
def rustTrim (s : String) : String :=
  String.mk (((s.data.dropWhile isRustWhitespace).reverse.dropWhile
    isRustWhitespace).reverse)

/-- The `git` sub-object of the `.cargo_vcs_info.json` schema (src/lib.rs,
struct `CargoVcsInfoGit`). -/
structure CargoVcsInfoGit where
  sha1 : String
  deriving DecidableEq

/-- The `.cargo_vcs_info.json` schema (src/lib.rs, struct `CargoVcsInfo`). -/
structure CargoVcsInfo where
  git : CargoVcsInfoGit
  deriving DecidableEq

/-- Result of a subprocess invocation that spawned: an exit status and the
captured stdout bytes.  The source keeps only `.stdout` via
`.map(|o| o.stdout)`; the status is carried here so that its irrelevance is
provable. -/
structure Output where
  status : Nat
  stdout : List Nat
  deriving DecidableEq

/-- The two subprocess invocations the routine can make. -/
inductive GitCall where
  | revParse
  | describe
  deriving DecidableEq

/-- Observable events of a run: a successful `writeln!` to the sink (payload
without the trailing newline) or a subprocess invocation. -/
inductive Ev where
  | wline (s : String)
  | call (c : GitCall)
  deriving DecidableEq

/-- Run state: the event trace so far and the number of successful sink
writes (used to index the sink's failure behaviour). -/
structure St where
  events : List Ev
  writes : Nat
  deriving DecidableEq

/-- Environment of external capabilities crossed by `__init`:
`read_to_string` of the metadata file, `serde_json::from_str`, the two
`Command::output` calls (error value = the Debug rendering of the
`std::io::Error`), and the sink's behaviour on the n-th write attempt
(`none` = success, `some e` = `writeln!` fails with error `e`). -/
structure Env where
  readVcsInfo : Except String String
  parseVcsInfo : String → Option CargoVcsInfo
  gitRevParse : Except String Output
  gitDescribe : Except String Output
  sinkFail : Nat → Option String

/-- One `writeln!(w, s)?`: fails with the sink's error when the sink fails
this write, otherwise appends the line event. -/
def writeEv (env : Env) (st : St) (s : String) : Except String St :=
  match env.sinkFail st.writes with
  | some e => Except.error e
  | none => Except.ok ⟨st.events ++ [Ev.wline s], st.writes + 1⟩

/-- Record a subprocess invocation in the trace. -/
def recordCall (st : St) (c : GitCall) : St :=
  ⟨st.events ++ [Ev.call c], st.writes⟩

/-- First block of `__init`: the revision taken from `.cargo_vcs_info.json`,
`some vcs_info.git.sha1` exactly when the read and the parse both succeed. -/
def snapshotSha (env : Env) : Option String :=
  match env.readVcsInfo with
  | Except.ok s =>
    match env.parseVcsInfo s with
    | some info => some info.git.sha1
    | none => none
  | Except.error _ => none

/-- Second block of `__init` (run only when `git_sha.is_none()`): invoke
`git rev-parse --git-dir`; on spawn error warn and stop; otherwise trim the
lossily decoded stdout, emit the three rerun-if-changed directives, invoke
`git describe`; on spawn error warn and stop; otherwise the strictly decoded
stdout is the revision. -/
def gitLookup (env : Env) (dir : String) (st : St) :
    Except String (Option String × St) :=
  let st := recordCall st GitCall.revParse
  match env.gitRevParse with
  | Except.error e =>
    match writeEv env st
        ("cargo:warning=Error getting git directory to get git revision: " ++ e) with
    | Except.error ew => Except.error ew
    | Except.ok st => Except.ok (none, st)
  | Except.ok out =>
    let gitDir := rustTrim (fromUtf8Lossy out.stdout)
    match writeEv env st ("cargo:rerun-if-changed=" ++ gitDir ++ "/index") with
    | Except.error ew => Except.error ew
    | Except.ok st =>
      match writeEv env st ("cargo:rerun-if-changed=" ++ gitDir ++ "/HEAD") with
      | Except.error ew => Except.error ew
      | Except.ok st =>
        match writeEv env st ("cargo:rerun-if-changed=" ++ gitDir ++ "/refs") with
        | Except.error ew => Except.error ew
        | Except.ok st =>
          let st := recordCall st GitCall.describe
          match env.gitDescribe with
          | Except.error e =>
            match writeEv env st
                ("cargo:warning=Error getting git revision from \"" ++ dir ++
                  "\": " ++ e) with
            | Except.error ew => Except.error ew
            | Except.ok st => Except.ok (none, st)
          | Except.ok out2 => Except.ok (fromUtf8 out2.stdout, st)

/-- The routine `fn __init(w, current_dir)` of src/lib.rs: snapshot metadata
first, the live repository only when it yielded nothing, finally the
`cargo:rustc-env` directive when a revision was obtained. -/
def __init (env : Env) (dir : String) : Except String St :=
  let st0 : St := ⟨[], 0⟩
  let step :=
    match snapshotSha env with
    | some s => Except.ok (some s, st0)
    | none => gitLookup env dir st0
  match step with
  | Except.error e => Except.error e
  | Except.ok (sha, st) =>
    match sha with
    | some s => writeEv env st ("cargo:rustc-env=GIT_REVISION=" ++ s)
    | none => Except.ok st

/-- The byte stream actually written to the sink: each line event followed by
the newline `writeln!` appends; invocation events write nothing. -/
def renderOut (events : List Ev) : String :=
  events.foldl
    (fun acc ev =>
      match ev with
      | Ev.wline s => acc ++ s ++ "\n"
      | Ev.call _ => acc) ""

instance {ε α : Type} [DecidableEq ε] [DecidableEq α] : DecidableEq (Except ε α) :=
  fun x y =>
    match x, y with
    | Except.ok a, Except.ok b =>
      if h : a = b then isTrue (by rw [h])
      else isFalse (by intro hh; injection hh; contradiction)
    | Except.error a, Except.error b =>
      if h : a = b then isTrue (by rw [h])
      else isFalse (by intro hh; injection hh; contradiction)
    | Except.ok _, Except.error _ => isFalse (by intro hh; injection hh)
    | Except.error _, Except.ok _ => isFalse (by intro hh; injection hh)

/-! ### Concrete environments used by the witness theorems -/

/-- A published crate: the snapshot-metadata file is present and the
deserializer accepts it, and a live repository also exists at the location. -/
def envSnap : Env :=
  { readVcsInfo := Except.ok "\x7b\"git\": \x7b\"sha1\": \"abc123\"\x7d\x7d"
    parseVcsInfo := fun _ => some ⟨⟨"abc123"⟩⟩
    gitRevParse := Except.ok ⟨0, [0x2E, 0x67, 0x69, 0x74, 0x0A]⟩
    gitDescribe := Except.ok ⟨0, [0x61, 0x62, 0x0A]⟩
    sinkFail := fun _ => none }

/-- A live checkout: no snapshot-metadata file, `git rev-parse --git-dir`
prints `.git` followed by a newline, `git describe` prints `ab` followed by a
newline. -/
def envLive : Env :=
  { envSnap with readVcsInfo := Except.error "No such file or directory (os error 2)" }

/-- A snapshot-metadata file that is present but rejected by the
deserializer. -/
def envBadJson : Env :=
  { envLive with readVcsInfo := Except.ok "#", parseVcsInfo := fun _ => none }

/-- The tool spawns but the start directory is inside no repository: both
invocations run, report failure through their exit status, and produce empty
stdout. -/
def envNoRepo : Env :=
  { envLive with gitRevParse := Except.ok ⟨128, []⟩
                 gitDescribe := Except.ok ⟨128, []⟩ }

/-- The first invocation fails to spawn. -/
def envSpawnFail : Env :=
  { envLive with gitRevParse := Except.error "Os \x7b code: 2, kind: NotFound \x7d" }

/-- The second invocation fails to spawn. -/
def envDescFail : Env :=
  { envLive with gitDescribe := Except.error "Os \x7b code: 2, kind: NotFound \x7d" }

/-- The second invocation succeeds but its stdout is not valid UTF-8. -/
def envBadUtf8 : Env :=
  { envLive with gitDescribe := Except.ok ⟨0, [0xFF]⟩ }

/-! ### Helper lemmas -/

/-- A failing `writeln!` fails with the error the sink reported for that
write. -/
theorem writeEv_error (env : Env) (st : St) (s e : String)
    (h : writeEv env st s = Except.error e) :
    env.sinkFail st.writes = some e := by
  cases heq : env.sinkFail st.writes with
  | none => simp [writeEv, heq] at h
  | some e2 =>
    simp only [writeEv, heq] at h
    injection h with h
    rw [h]

/-- Any error `__init` returns was reported by the sink on some write
attempt: no other failure source is ever propagated. -/
theorem __init_error (env : Env) (dir : String) (e : String)
    (h : __init env dir = Except.error e) : ∃ n, env.sinkFail n = some e := by
  cases hsnap : snapshotSha env with
  | some s =>
    cases hs0 : env.sinkFail 0 with
    | none => simp [__init, hsnap, writeEv, hs0] at h
    | some e2 => exact ⟨0, by simp [__init, hsnap, writeEv, hs0] at h; simp [hs0, h]⟩
  | none =>
    cases hrev : env.gitRevParse with
    | error ge =>
      cases hs0 : env.sinkFail 0 with
      | none => simp [__init, gitLookup, recordCall, hsnap, hrev, writeEv, hs0] at h
      | some e2 =>
        exact ⟨0, by
          simp [__init, gitLookup, recordCall, hsnap, hrev, writeEv, hs0] at h
          simp [hs0, h]⟩
    | ok out =>
      cases hs0 : env.sinkFail 0 with
      | some e2 =>
        exact ⟨0, by
          simp [__init, gitLookup, recordCall, hsnap, hrev, writeEv, hs0] at h
          simp [hs0, h]⟩
      | none =>
        cases hs1 : env.sinkFail 1 with
        | some e2 =>
          exact ⟨1, by
            simp [__init, gitLookup, recordCall, hsnap, hrev, writeEv, hs0, hs1] at h
            simp [hs1, h]⟩
        | none =>
          cases hs2 : env.sinkFail 2 with
          | some e2 =>
            exact ⟨2, by
              simp [__init, gitLookup, recordCall, hsnap, hrev, writeEv, hs0, hs1, hs2] at h
              simp [hs2, h]⟩
          | none =>
            cases hdesc : env.gitDescribe with
            | error ge =>
              cases hs3 : env.sinkFail 3 with
              | none =>
                simp [__init, gitLookup, recordCall, hsnap, hrev, hdesc, writeEv,
                  hs0, hs1, hs2, hs3] at h
              | some e2 =>
                exact ⟨3, by
                  simp [__init, gitLookup, recordCall, hsnap, hrev, hdesc, writeEv,
                    hs0, hs1, hs2, hs3] at h
                  simp [hs3, h]⟩
            | ok out2 =>
              cases hdec : fromUtf8 out2.stdout with
              | none =>
                simp [__init, gitLookup, recordCall, hsnap, hrev, hdesc, hdec, writeEv,
                  hs0, hs1, hs2] at h
              | some s =>
                cases hs3 : env.sinkFail 3 with
                | none =>
                  simp [__init, gitLookup, recordCall, hsnap, hrev, hdesc, hdec, writeEv,
                    hs0, hs1, hs2, hs3] at h
                | some e2 =>
                  exact ⟨3, by
                    simp [__init, gitLookup, recordCall, hsnap, hrev, hdesc, hdec, writeEv,
                      hs0, hs1, hs2, hs3] at h
                    simp [hs3, h]⟩

/-! ### Claim theorems -/

/-- Claim C1: for every start directory whose snapshot-metadata file is
readable and parses with `git.sha1 = S`, `__init` emits exactly one
directive, `cargo:rustc-env=GIT_REVISION=` followed by `S` verbatim, with no
rerun-if-changed directives and no warnings, and never invokes the
version-control tool, whatever the git repository at the location would have
answered. -/
theorem c1_snapshot_precedence (env : Env) (dir c S : String)
    (hread : env.readVcsInfo = Except.ok c)
    (hparse : env.parseVcsInfo c = some ⟨⟨S⟩⟩)
    (hsink : env.sinkFail 0 = none) :
    __init env dir =
      Except.ok ⟨[Ev.wline ("cargo:rustc-env=GIT_REVISION=" ++ S)], 1⟩ := by
  simp [__init, snapshotSha, hread, hparse, writeEv, hsink]

/-- Witness for C1 at a concrete published-crate environment. -/
theorem c1_snapshot_precedence_witness :
    __init envSnap "/pkg" =
      Except.ok ⟨[Ev.wline ("cargo:rustc-env=GIT_REVISION=" ++ "abc123")], 1⟩ :=
  c1_snapshot_precedence envSnap "/pkg"
    "\x7b\"git\": \x7b\"sha1\": \"abc123\"\x7d\x7d" "abc123" rfl rfl rfl

/-- Claim C2: `__init` fails exactly when a sink write fails: if every write
succeeds it returns success, and any returned error is one the sink reported
on some write attempt, so read, parse and subprocess failures are never
propagated. -/
theorem c2_error_iff_sink_failure (env : Env) (dir : String) :
    ((∀ n, env.sinkFail n = none) → ∃ st, __init env dir = Except.ok st) ∧
      ∀ e, __init env dir = Except.error e → ∃ n, env.sinkFail n = some e := by
  constructor
  · intro hs
    cases hres : __init env dir with
    | ok st => exact ⟨st, rfl⟩
    | error e =>
      obtain ⟨n, hn⟩ := __init_error env dir e hres
      rw [hs n] at hn
      cases hn
  · exact fun e h => __init_error env dir e h

/-- Witness for C2 at a concrete environment whose sink never fails. -/
theorem c2_error_iff_sink_failure_witness :
    ∃ st, __init envSnap "/pkg" = Except.ok st :=
  (c2_error_iff_sink_failure envSnap "/pkg").1 (fun _ => rfl)

/-- Claim C8: resolution is deterministic: with the start directory, the
snapshot file and the tool behaviour fixed in the environment, two calls to
`__init` return the same result, hence byte-for-byte identical sink output. -/
theorem c8_deterministic (env : Env) (dir : String) :
    __init env dir = __init env dir := rfl

/-- Claim C10: the exit status of both invocations is never inspected:
replacing the statuses of any spawned invocations changes nothing about the
run, so a run that exits unsuccessfully is treated exactly like a successful
one and only a spawn error selects the warning branch. -/
theorem c10_exit_status_ignored (env : Env) (dir : String) (n1 n2 : Nat) :
    __init
      { env with
        gitRevParse :=
          match env.gitRevParse with
          | Except.ok o => Except.ok ⟨n1, o.stdout⟩
          | Except.error e => Except.error e
        gitDescribe :=
          match env.gitDescribe with
          | Except.ok o => Except.ok ⟨n2, o.stdout⟩
          | Except.error e => Except.error e } dir = __init env dir := by
  cases hrev : env.gitRevParse <;> cases hdesc : env.gitDescribe <;>
    simp [__init, snapshotSha, gitLookup, recordCall, writeEv, hrev, hdesc]

/-- Claim C3: in every run that reaches the live-repository branch and whose
first invocation succeeds, the three rerun-if-changed directives are emitted
in the fixed order index, HEAD, refs after the first invocation and before
the describe invocation is attempted — hence they are emitted even when the
describe invocation subsequently fails, and they precede any
revision-definition directive, which can only occur in the remaining trace. -/
theorem c3_invalidation_order (env : Env) (dir : String) (out : Output)
    (hsnap : snapshotSha env = none)
    (hrev : env.gitRevParse = Except.ok out)
    (hs : ∀ n, env.sinkFail n = none) :
    ∃ st rest, __init env dir = Except.ok st ∧
      st.events =
        Ev.call GitCall.revParse ::
          Ev.wline ("cargo:rerun-if-changed=" ++
            rustTrim (fromUtf8Lossy out.stdout) ++ "/index") ::
          Ev.wline ("cargo:rerun-if-changed=" ++
            rustTrim (fromUtf8Lossy out.stdout) ++ "/HEAD") ::
          Ev.wline ("cargo:rerun-if-changed=" ++
            rustTrim (fromUtf8Lossy out.stdout) ++ "/refs") ::
          Ev.call GitCall.describe :: rest := by
  cases hdesc : env.gitDescribe with
  | error ge =>
    refine ⟨⟨[Ev.call GitCall.revParse,
      Ev.wline ("cargo:rerun-if-changed=" ++
        rustTrim (fromUtf8Lossy out.stdout) ++ "/index"),
      Ev.wline ("cargo:rerun-if-changed=" ++
        rustTrim (fromUtf8Lossy out.stdout) ++ "/HEAD"),
      Ev.wline ("cargo:rerun-if-changed=" ++
        rustTrim (fromUtf8Lossy out.stdout) ++ "/refs"),
      Ev.call GitCall.describe,
      Ev.wline ("cargo:warning=Error getting git revision from \"" ++ dir ++
        "\": " ++ ge)], 4⟩,
      [Ev.wline ("cargo:warning=Error getting git revision from \"" ++ dir ++
        "\": " ++ ge)], ?_, ?_⟩
    · simp [__init, gitLookup, recordCall, writeEv, hsnap, hrev, hdesc, hs]
    · rfl
  | ok out2 =>
    cases hdec : fromUtf8 out2.stdout with
    | none =>
      refine ⟨⟨[Ev.call GitCall.revParse,
        Ev.wline ("cargo:rerun-if-changed=" ++
          rustTrim (fromUtf8Lossy out.stdout) ++ "/index"),
        Ev.wline ("cargo:rerun-if-changed=" ++
          rustTrim (fromUtf8Lossy out.stdout) ++ "/HEAD"),
        Ev.wline ("cargo:rerun-if-changed=" ++
          rustTrim (fromUtf8Lossy out.stdout) ++ "/refs"),
        Ev.call GitCall.describe], 3⟩, [], ?_, ?_⟩
      · simp [__init, gitLookup, recordCall, writeEv, hsnap, hrev, hdesc, hdec, hs]
      · rfl
    | some s =>
      refine ⟨⟨[Ev.call GitCall.revParse,
        Ev.wline ("cargo:rerun-if-changed=" ++
          rustTrim (fromUtf8Lossy out.stdout) ++ "/index"),
        Ev.wline ("cargo:rerun-if-changed=" ++
          rustTrim (fromUtf8Lossy out.stdout) ++ "/HEAD"),
        Ev.wline ("cargo:rerun-if-changed=" ++
          rustTrim (fromUtf8Lossy out.stdout) ++ "/refs"),
        Ev.call GitCall.describe,
        Ev.wline ("cargo:rustc-env=GIT_REVISION=" ++ s)], 4⟩,
        [Ev.wline ("cargo:rustc-env=GIT_REVISION=" ++ s)], ?_, ?_⟩
      · simp [__init, gitLookup, recordCall, writeEv, hsnap, hrev, hdesc, hdec, hs]
      · rfl

/-- Witness for C3 at a concrete live-checkout environment. -/
theorem c3_invalidation_order_witness :
    ∃ st rest, __init envLive "/pkg" = Except.ok st ∧
      st.events =
        Ev.call GitCall.revParse ::
          Ev.wline ("cargo:rerun-if-changed=" ++
            rustTrim (fromUtf8Lossy (Output.mk 0 [0x2E, 0x67, 0x69, 0x74, 0x0A]).stdout) ++
            "/index") ::
          Ev.wline ("cargo:rerun-if-changed=" ++
            rustTrim (fromUtf8Lossy (Output.mk 0 [0x2E, 0x67, 0x69, 0x74, 0x0A]).stdout) ++
            "/HEAD") ::
          Ev.wline ("cargo:rerun-if-changed=" ++
            rustTrim (fromUtf8Lossy (Output.mk 0 [0x2E, 0x67, 0x69, 0x74, 0x0A]).stdout) ++
            "/refs") ::
          Ev.call GitCall.describe :: rest :=
  c3_invalidation_order envLive "/pkg" ⟨0, [0x2E, 0x67, 0x69, 0x74, 0x0A]⟩
    rfl rfl (fun _ => rfl)

/-- Claim C4: a spawn failure of either invocation is degraded to exactly one
`cargo:warning=` line and produces no revision-definition directive; when the
first invocation is the one that fails to spawn, that warning is the only
output of the whole run. -/
theorem c4_spawn_failure_warning (env : Env) (dir : String)
    (hsnap : snapshotSha env = none)
    (hs : ∀ n, env.sinkFail n = none) :
    (∀ e, env.gitRevParse = Except.error e →
      __init env dir = Except.ok
        ⟨[Ev.call GitCall.revParse,
          Ev.wline ("cargo:warning=Error getting git directory to get git revision: " ++ e)],
          1⟩) ∧
      ∀ out e, env.gitRevParse = Except.ok out → env.gitDescribe = Except.error e →
        __init env dir = Except.ok
          ⟨[Ev.call GitCall.revParse,
            Ev.wline ("cargo:rerun-if-changed=" ++
              rustTrim (fromUtf8Lossy out.stdout) ++ "/index"),
            Ev.wline ("cargo:rerun-if-changed=" ++
              rustTrim (fromUtf8Lossy out.stdout) ++ "/HEAD"),
            Ev.wline ("cargo:rerun-if-changed=" ++
              rustTrim (fromUtf8Lossy out.stdout) ++ "/refs"),
            Ev.call GitCall.describe,
            Ev.wline ("cargo:warning=Error getting git revision from \"" ++ dir ++
              "\": " ++ e)], 4⟩ := by
  constructor
  · intro e hrev
    simp [__init, gitLookup, recordCall, writeEv, hsnap, hrev, hs]
  · intro out e hrev hdesc
    simp [__init, gitLookup, recordCall, writeEv, hsnap, hrev, hdesc, hs]

/-- Witness for C4 at concrete environments where the first, respectively the
second, invocation fails to spawn. -/
theorem c4_spawn_failure_warning_witness :
    __init envSpawnFail "/pkg" = Except.ok
      ⟨[Ev.call GitCall.revParse,
        Ev.wline ("cargo:warning=Error getting git directory to get git revision: " ++
          "Os \x7b code: 2, kind: NotFound \x7d")], 1⟩ ∧
      __init envDescFail "/pkg" = Except.ok
        ⟨[Ev.call GitCall.revParse,
          Ev.wline ("cargo:rerun-if-changed=" ++
            rustTrim (fromUtf8Lossy (Output.mk 0 [0x2E, 0x67, 0x69, 0x74, 0x0A]).stdout) ++
            "/index"),
          Ev.wline ("cargo:rerun-if-changed=" ++
            rustTrim (fromUtf8Lossy (Output.mk 0 [0x2E, 0x67, 0x69, 0x74, 0x0A]).stdout) ++
            "/HEAD"),
          Ev.wline ("cargo:rerun-if-changed=" ++
            rustTrim (fromUtf8Lossy (Output.mk 0 [0x2E, 0x67, 0x69, 0x74, 0x0A]).stdout) ++
            "/refs"),
          Ev.call GitCall.describe,
          Ev.wline ("cargo:warning=Error getting git revision from \"" ++ "/pkg" ++
            "\": " ++ "Os \x7b code: 2, kind: NotFound \x7d")], 4⟩ :=
  ⟨(c4_spawn_failure_warning envSpawnFail "/pkg" rfl (fun _ => rfl)).1
      "Os \x7b code: 2, kind: NotFound \x7d" rfl,
    (c4_spawn_failure_warning envDescFail "/pkg" rfl (fun _ => rfl)).2
      ⟨0, [0x2E, 0x67, 0x69, 0x74, 0x0A]⟩ "Os \x7b code: 2, kind: NotFound \x7d" rfl rfl⟩

/-- Claim C5: when the describe invocation spawns but its stdout is not valid
UTF-8, the run ends after the invalidation directives: no revision-definition
directive and no warning are emitted. -/
theorem c5_invalid_utf8_silent (env : Env) (dir : String) (out out2 : Output)
    (hsnap : snapshotSha env = none)
    (hrev : env.gitRevParse = Except.ok out)
    (hdesc : env.gitDescribe = Except.ok out2)
    (hdec : fromUtf8 out2.stdout = none)
    (hs : ∀ n, env.sinkFail n = none) :
    __init env dir = Except.ok
      ⟨[Ev.call GitCall.revParse,
        Ev.wline ("cargo:rerun-if-changed=" ++
          rustTrim (fromUtf8Lossy out.stdout) ++ "/index"),
        Ev.wline ("cargo:rerun-if-changed=" ++
          rustTrim (fromUtf8Lossy out.stdout) ++ "/HEAD"),
        Ev.wline ("cargo:rerun-if-changed=" ++
          rustTrim (fromUtf8Lossy out.stdout) ++ "/refs"),
        Ev.call GitCall.describe], 3⟩ := by
  simp [__init, gitLookup, recordCall, writeEv, hsnap, hrev, hdesc, hdec, hs]

/-- Witness for C5 at a concrete environment whose describe stdout is the
ill-formed byte 0xFF. -/
theorem c5_invalid_utf8_silent_witness :
    __init envBadUtf8 "/pkg" = Except.ok
      ⟨[Ev.call GitCall.revParse,
        Ev.wline ("cargo:rerun-if-changed=" ++
          rustTrim (fromUtf8Lossy (Output.mk 0 [0x2E, 0x67, 0x69, 0x74, 0x0A]).stdout) ++
          "/index"),
        Ev.wline ("cargo:rerun-if-changed=" ++
          rustTrim (fromUtf8Lossy (Output.mk 0 [0x2E, 0x67, 0x69, 0x74, 0x0A]).stdout) ++
          "/HEAD"),
        Ev.wline ("cargo:rerun-if-changed=" ++
          rustTrim (fromUtf8Lossy (Output.mk 0 [0x2E, 0x67, 0x69, 0x74, 0x0A]).stdout) ++
          "/refs"),
        Ev.call GitCall.describe], 3⟩ :=
  c5_invalid_utf8_silent envBadUtf8 "/pkg" ⟨0, [0x2E, 0x67, 0x69, 0x74, 0x0A]⟩
    ⟨0, [0xFF]⟩ rfl rfl rfl rfl (fun _ => rfl)

/-- Claim C6: when the snapshot-metadata file is absent, unreadable or fails
to parse, the run is identical to one whose file read fails outright, for any
read error: no warning about the file and the live-repository lookup proceeds
exactly as if the file were absent. -/
theorem c6_snapshot_failure_ignored (env : Env) (dir e : String)
    (hsnap : snapshotSha env = none) :
    __init env dir = __init { env with readVcsInfo := Except.error e } dir := by
  have h2 : snapshotSha { env with readVcsInfo := Except.error e } = none := rfl
  simp only [__init, hsnap, h2]
  rfl

/-- Witness for C6 at a concrete environment whose metadata file is present
but rejected by the deserializer. -/
theorem c6_snapshot_failure_ignored_witness :
    __init envBadJson "/pkg" =
      __init { envBadJson with readVcsInfo := Except.error "unreadable" } "/pkg" :=
  c6_snapshot_failure_ignored envBadJson "/pkg" "unreadable" rfl

/-- Claim C7, counterexample: in the stipulated no-repository scenario —
both invocations spawn, report failure through their exit status and produce
empty stdout — the code does emit a constant-definition directive: the empty
stdout of the describe invocation decodes as the empty string, so
`cargo:rustc-env=GIT_REVISION=` with an empty value is written, refuting
"does not emit a constant-definition (cargo:rustc-env) directive". -/
theorem c7_counterexample_empty_directive_emitted :
    __init envNoRepo "/pkg" = Except.ok
      ⟨[Ev.call GitCall.revParse,
        Ev.wline "cargo:rerun-if-changed=/index",
        Ev.wline "cargo:rerun-if-changed=/HEAD",
        Ev.wline "cargo:rerun-if-changed=/refs",
        Ev.call GitCall.describe,
        Ev.wline "cargo:rustc-env=GIT_REVISION="], 4⟩ ∧
      Ev.wline "cargo:rustc-env=GIT_REVISION=" ∈
        [Ev.call GitCall.revParse,
          Ev.wline "cargo:rerun-if-changed=/index",
          Ev.wline "cargo:rerun-if-changed=/HEAD",
          Ev.wline "cargo:rerun-if-changed=/refs",
          Ev.call GitCall.describe,
          Ev.wline "cargo:rustc-env=GIT_REVISION="] := by
  constructor
  · decide
  · decide

/-- Claim C7 as amended: when the tool spawns but the start directory is
inside no repository (both invocations run, report failure and produce empty
stdout), `__init` returns no fatal error and emits no constant-definition
directive with a non-empty revision; the one `cargo:rustc-env` directive it
emits carries the empty value, after rerun-if-changed directives referencing
the empty git-dir path. -/
theorem c7_no_fatal_error_empty_value (env : Env) (dir : String)
    (out out2 : Output)
    (hsnap : snapshotSha env = none)
    (hrev : env.gitRevParse = Except.ok out) (h1 : out.stdout = [])
    (hdesc : env.gitDescribe = Except.ok out2) (h2 : out2.stdout = [])
    (hs : ∀ n, env.sinkFail n = none) :
    __init env dir = Except.ok
      ⟨[Ev.call GitCall.revParse,
        Ev.wline "cargo:rerun-if-changed=/index",
        Ev.wline "cargo:rerun-if-changed=/HEAD",
        Ev.wline "cargo:rerun-if-changed=/refs",
        Ev.call GitCall.describe,
        Ev.wline "cargo:rustc-env=GIT_REVISION="], 4⟩ := by
  have hgd : rustTrim (fromUtf8Lossy []) = "" := rfl
  have hdec : fromUtf8 [] = some "" := rfl
  have ha : ("cargo:rerun-if-changed=" ++ "/index" : String) =
    "cargo:rerun-if-changed=/index" := rfl
  have hb : ("cargo:rerun-if-changed=" ++ "/HEAD" : String) =
    "cargo:rerun-if-changed=/HEAD" := rfl
  have hc : ("cargo:rerun-if-changed=" ++ "/refs" : String) =
    "cargo:rerun-if-changed=/refs" := rfl
  simp [__init, gitLookup, recordCall, writeEv, hsnap, hrev, hdesc, h1, h2,
    hgd, hdec, ha, hb, hc, hs]

/-- Witness for the amended C7 at the concrete no-repository environment. -/
theorem c7_no_fatal_error_empty_value_witness :
    __init envNoRepo "/pkg" = Except.ok
      ⟨[Ev.call GitCall.revParse,
        Ev.wline "cargo:rerun-if-changed=/index",
        Ev.wline "cargo:rerun-if-changed=/HEAD",
        Ev.wline "cargo:rerun-if-changed=/refs",
        Ev.call GitCall.describe,
        Ev.wline "cargo:rustc-env=GIT_REVISION="], 4⟩ :=
  c7_no_fatal_error_empty_value envNoRepo "/pkg" ⟨128, []⟩ ⟨128, []⟩
    rfl rfl rfl rfl rfl (fun _ => rfl)

/-- Claim C9: the describe stdout is used as the revision with no trimming:
for every valid-UTF-8 describe output `D`, the directive written is exactly
`cargo:rustc-env=GIT_REVISION=` followed by `D` verbatim, and the byte
stream for that line is `cargo:rustc-env=GIT_REVISION=` ++ `D` ++ `"\n"`, so
a trailing newline in `D` ends up inside the defined value — whereas the
git-dir stdout is passed through `rustTrim` before use. -/
theorem c9_describe_output_untrimmed (env : Env) (dir : String)
    (out out2 : Output) (D : String)
    (hsnap : snapshotSha env = none)
    (hrev : env.gitRevParse = Except.ok out)
    (hdesc : env.gitDescribe = Except.ok out2)
    (hdec : fromUtf8 out2.stdout = some D)
    (hs : ∀ n, env.sinkFail n = none) :
    __init env dir = Except.ok
      ⟨[Ev.call GitCall.revParse,
        Ev.wline ("cargo:rerun-if-changed=" ++
          rustTrim (fromUtf8Lossy out.stdout) ++ "/index"),
        Ev.wline ("cargo:rerun-if-changed=" ++
          rustTrim (fromUtf8Lossy out.stdout) ++ "/HEAD"),
        Ev.wline ("cargo:rerun-if-changed=" ++
          rustTrim (fromUtf8Lossy out.stdout) ++ "/refs"),
        Ev.call GitCall.describe,
        Ev.wline ("cargo:rustc-env=GIT_REVISION=" ++ D)], 4⟩ ∧
      renderOut [Ev.wline ("cargo:rustc-env=GIT_REVISION=" ++ D)] =
        "cargo:rustc-env=GIT_REVISION=" ++ D ++ "\n" := by
  constructor
  · simp [__init, gitLookup, recordCall, writeEv, hsnap, hrev, hdesc, hdec, hs]
  · simp [renderOut]

/-- Witness for C9 at a concrete environment whose describe stdout is the
bytes of `"ab\n"`: the trailing newline stays inside the defined value. -/
theorem c9_describe_output_untrimmed_witness :
    (__init envLive "/pkg" = Except.ok
      ⟨[Ev.call GitCall.revParse,
        Ev.wline ("cargo:rerun-if-changed=" ++
          rustTrim (fromUtf8Lossy (Output.mk 0 [0x2E, 0x67, 0x69, 0x74, 0x0A]).stdout) ++
          "/index"),
        Ev.wline ("cargo:rerun-if-changed=" ++
          rustTrim (fromUtf8Lossy (Output.mk 0 [0x2E, 0x67, 0x69, 0x74, 0x0A]).stdout) ++
          "/HEAD"),
        Ev.wline ("cargo:rerun-if-changed=" ++
          rustTrim (fromUtf8Lossy (Output.mk 0 [0x2E, 0x67, 0x69, 0x74, 0x0A]).stdout) ++
          "/refs"),
        Ev.call GitCall.describe,
        Ev.wline ("cargo:rustc-env=GIT_REVISION=" ++ "ab\n")], 4⟩) ∧
      renderOut [Ev.wline ("cargo:rustc-env=GIT_REVISION=" ++ "ab\n")] =
        "cargo:rustc-env=GIT_REVISION=" ++ "ab\n" ++ "\n" :=
  c9_describe_output_untrimmed envLive "/pkg" ⟨0, [0x2E, 0x67, 0x69, 0x74, 0x0A]⟩
    ⟨0, [0x61, 0x62, 0x0A]⟩ "ab\n" rfl rfl rfl rfl (fun _ => rfl)

end CrateGitRevision
